import Mathlib

set_option maxRecDepth 10000

/-!
Verification development for the ComfyUI-PromptGenerator repository.

Strings are modelled as `List Char`.  Wall-clock durations are modelled as
rationals (`ℚ`); the Python literals `0.6` and `1.3` denote, for the integer
operands that actually occur (timeouts in `[30, 600]`), floating-point
products that round to the exact rational value, so `6/10` and `13/10`
model them exactly.
-/

/-! ## Python string helpers (`str.strip`, `str.startswith`, `str.split(":")[0]`) -/

/-- Whitespace test used by Python's `str.strip()` and the `\s` character
class, restricted to the ASCII whitespace characters that can occur in the
data handled by this plugin. -/
def isSpace (c : Char) : Bool :=
  c = ' ' || c = '\t' || c = '\n' || c = '\r' || c = '\x0b' || c = '\x0c'

/-- Python `s.strip()`: remove leading and trailing whitespace. -/
def pyStrip (s : List Char) : List Char :=
  (s.dropWhile isSpace).rdropWhile isSpace

/-- Python `s.strip('"')`: remove all leading and trailing double quotes. -/
def pyStripQuotes (s : List Char) : List Char :=
  (s.dropWhile (· = '"')).rdropWhile (· = '"')

/-- ASCII lower-casing, as Python `str.lower()` on the ASCII identifiers
handled by this plugin. -/
def toLowerCh (c : Char) : Char :=
  if 'A' ≤ c && c ≤ 'Z' then Char.ofNat (c.toNat + 32) else c

/-- If `p` is a leading segment of `s`, return the remainder of `s`
after it; otherwise `none`. -/
def dropPrefixOpt : List Char → List Char → Option (List Char)
  | [], s => some s
  | _ :: _, [] => none
  | p :: ps, c :: cs => if p = c then dropPrefixOpt ps cs else none

/-- Python `s.startswith(p)`. -/
def startsWithL (p s : List Char) : Bool :=
  (dropPrefixOpt p s).isSome

/-- Python `s.split(":")[0]`: the part of `s` before the first colon
(all of `s` when there is no colon). -/
def splitHeadColon (s : List Char) : List Char :=
  s.takeWhile (· ≠ ':')

/-! ## The output sanitizer (`extract_final_prompt`, lines 43-66)

Each `re.sub(pattern, "", text)` call is modelled by a left-to-right scan
that, at each position, removes the leftmost-starting match (every pattern
below only matches non-empty text) and resumes scanning after it. -/

def thinkOpenLit : List Char := "Thinking...".toList

def thinkCloseLit : List Char := "...done thinking.".toList

def promptLabelLitA : List Char := "**Stable Diffusion Prompt:**".toList

def promptLabelLitB : List Char := "**Prompt:**".toList

def promptImageLit : List Char := "**Prompt for Image Generation:**".toList

def noneLit : List Char := "None".toList

/-- Scan for the first occurrence of `"...done thinking."`; return the
remainder after it.  This realises the non-greedy `[\s\S]*?` of the
thinking-block pattern: the match ends at the earliest possible close
marker. -/
def findThinkClose : List Char → Option (List Char)
  | [] => none
  | c :: cs =>
    match dropPrefixOpt thinkCloseLit (c :: cs) with
    | some r => some r
    | none => findThinkClose cs

/-- Match of `Thinking\.\.\.[\s\S]*?\.\.\.done thinking\.[\s]*` at the head
of `s`: the literal open marker, the shortest span up to the close marker,
then greedily consumed whitespace. -/
def thinkMatchAt (s : List Char) : Option (List Char) :=
  match dropPrefixOpt thinkOpenLit s with
  | none => none
  | some r =>
    match findThinkClose r with
    | none => none
    | some r2 => some (r2.dropWhile isSpace)

/-- Match of `\*\*(?:Stable Diffusion )?Prompt:\*\*\s*` at the head of `s`
(the optional group is tried greedily first, as the regex engine does). -/
def promptLabelMatchAt (s : List Char) : Option (List Char) :=
  match dropPrefixOpt promptLabelLitA s with
  | some r => some (r.dropWhile isSpace)
  | none =>
    match dropPrefixOpt promptLabelLitB s with
    | some r => some (r.dropWhile isSpace)
    | none => none

/-- Match of `\*\*Prompt for Image Generation:\*\*\s*` at the head of `s`. -/
def promptImageMatchAt (s : List Char) : Option (List Char) :=
  match dropPrefixOpt promptImageLit s with
  | some r => some (r.dropWhile isSpace)
  | none => none

/-- Match of `\s*None\s*` at the head of `s`.  Since `'N'` is not
whitespace, the backtracking leading `\s*` succeeds exactly when the
maximal whitespace run at the head is followed by the literal `None`;
the trailing `\s*` is greedy. -/
def noneMatchAt (s : List Char) : Option (List Char) :=
  match dropPrefixOpt noneLit (s.dropWhile isSpace) with
  | some r => some (r.dropWhile isSpace)
  | none => none

/-- Left-to-right scan of `re.sub(pat, "", s)` for a pattern whose matches
are always non-empty: at each position either remove a match and continue
after it, or emit one character and move on.  `fuel` only bounds the
recursion; `s.length` steps always suffice because every match removes at
least one character. -/
def scanSubFuel (matchAt : List Char → Option (List Char)) : Nat → List Char → List Char
  | _, [] => []
  | 0, s => s
  | fuel + 1, c :: cs =>
    match matchAt (c :: cs) with
    | some rest => scanSubFuel matchAt fuel rest
    | none => c :: scanSubFuel matchAt fuel cs

/-- Line 52-54: remove Qwen3 thinking blocks. -/
def reSubThinking (s : List Char) : List Char :=
  scanSubFuel thinkMatchAt s.length s

/-- Line 57: remove `**Prompt:**` / `**Stable Diffusion Prompt:**` labels. -/
def reSubPromptLabel (s : List Char) : List Char :=
  scanSubFuel promptLabelMatchAt s.length s

/-- Line 58: remove `**Prompt for Image Generation:**` labels. -/
def reSubPromptImage (s : List Char) : List Char :=
  scanSubFuel promptImageMatchAt s.length s

/-- Line 61: remove stray `None` tokens together with surrounding
whitespace. -/
def reSubNone (s : List Char) : List Char :=
  scanSubFuel noneMatchAt s.length s

/-- `extract_final_prompt` (lines 43-66): strip thinking blocks, label
prefixes and stray `None`s, then trim whitespace, one `strip('"')` pass,
and whitespace again. -/
def extractFinalPrompt (s : List Char) : List Char :=
  if s = [] then s
  else
    pyStrip (pyStripQuotes (pyStrip
      (reSubNone (reSubPromptImage (reSubPromptLabel (reSubThinking s))))))

/-- The sanitisation applied by `generate` to backend output (lines
656-660 and 685-688): always `strip()`, and additionally
`extract_final_prompt` unless the reasoning is kept
(`keepReasoning` = the node's `include_reasoning` input). -/
def sanitizeOutput (keepReasoning : Bool) (s : List Char) : List Char :=
  let t := pyStrip s
  if keepReasoning then t else extractFinalPrompt t

/-! ## Backend health prober (`_check_ollama_health`, lines 438-469) -/

/-- Line 455-457: residency test of the health prober.  `model` is
considered loaded when it equals a running model's identifier or starts
with a running model's identifier cut at its first colon. -/
def modelIsLoaded (model : List Char) (running : List (List Char)) : Bool :=
  running.any (fun rm => model == rm || startsWithL (splitHeadColon rm) model)

/-- `_check_ollama_health` reduced to its two observable booleans
`(is_healthy, is_model_loaded)`.  `apiAvailable` is `OLLAMA_API_AVAILABLE`,
`listOk` is whether `ollama.list()` succeeds, `psOk` whether `ollama.ps()`
succeeds, and `running` the identifiers `ollama.ps()` reports. -/
def checkOllamaHealth (apiAvailable listOk psOk : Bool)
    (running : List (List Char)) (model : List Char) : Bool × Bool :=
  if !apiAvailable then (false, false)
  else if !listOk then (false, false)
  else if !psOk then (true, false)
  else (true, modelIsLoaded model running)

/-! ## Model-list ordering (`_get_available_models`, lines 247-255) -/

/-- Does `needle` occur as a contiguous run inside `hay` (Python
`needle in hay`)? -/
def hasSubstr (needle : List Char) : List Char → Bool
  | [] => (dropPrefixOpt needle []).isSome
  | c :: cs => (dropPrefixOpt needle (c :: cs)).isSome || hasSubstr needle cs

/-- Line 248: keywords marking LoRA / fine-tuned models. -/
def loraKeywords : List (List Char) :=
  ["lora".toList, "limbicnation".toList, "fine".toList, "style".toList, "prompt".toList]

/-- Line 250-252: `any(kw in name.lower() for kw in lora_keywords)`. -/
def isLoraName (name : List Char) : Bool :=
  loraKeywords.any (fun kw => hasSubstr kw (name.map toLowerCh))

/-- First component of the sort key: 0 for LoRA-marked names, 1 otherwise. -/
def loraFlag (name : List Char) : Nat :=
  if isLoraName name then 0 else 1

/-- Python string `≤` on the identifiers: lexicographic by code point. -/
def strLe : List Char → List Char → Bool
  | [], _ => true
  | _ :: _, [] => false
  | a :: as, b :: bs =>
    a.toNat < b.toNat || (a.toNat == b.toNat && strLe as bs)

/-- Comparison induced by the sort key `(0 if is_lora else 1, name)` of
line 253. -/
def modelKeyLe (a b : List Char) : Bool :=
  loraFlag a < loraFlag b || (loraFlag a == loraFlag b && strLe a b)

/-- The ordering relation induced by the sort key of line 253, as a
proposition. -/
def modelKeyR (a b : List Char) : Prop := modelKeyLe a b = true

instance : DecidableRel modelKeyR := fun a b =>
  inferInstanceAs (Decidable (modelKeyLe a b = true))

/-- Line 255: `sorted(models, key=sort_key)`. -/
def sortModels (models : List (List Char)) : List (List Char) :=
  models.insertionSort modelKeyR

/-! ## Streaming generation controller (`_generate_with_streaming`,
lines 471-573)

Wall-clock time is modelled in integer tenths of a second ("deciseconds",
`ℤ`): the node's timeout input is an integer number of seconds, so every
time constant of the code — `timeout`, `0.6 * timeout`, `90`, `30`,
`timeout - elapsed` — is an exact whole number of deciseconds.  (For
`timeout ≤ 600` the double products `timeout * 0.6` and `timeout * 1.3`
round to the exact mathematical value, so exact rational arithmetic is a
faithful model of the Python floats.) -/

/-- Computable minimum on `ℤ` (kernel-reducible, unlike the lattice `min`). -/
def imin (a b : ℤ) : ℤ := if a ≤ b then a else b

/-- Computable minimum on `Nat`. -/
def nmin (a b : Nat) : Nat := if a ≤ b then a else b

/-- One behaviour of the backend thread that advances the stream iterator:
after `d` deciseconds of waiting it either delivers a chunk with response
text `text`, signals `StopIteration` (`done`), or raises (`err`).  An
exhausted event list models an iterator that never returns. -/
inductive StreamEvent
  | chunk (d : ℤ) (text : List Char)
  | done (d : ℤ)
  | err (d : ℤ)
deriving DecidableEq

/-- Why the controller stopped; `totalTimeout` is the `break` at line 519,
`firstStall` / `laterStall` the per-chunk timeout return at line 538
(labelled "first chunk" / "chunk"), `streamDone` normal completion,
`streamFailed` the `except` handler at line 561 (which also absorbs a
raising progress sink inside the loop). -/
inductive StopReason
  | totalTimeout
  | firstStall
  | laterStall
  | streamDone
  | streamFailed
deriving DecidableEq

/-- The controller loop (lines 515-559).  All times are deciseconds:
`total` is the total budget, `fct` / `ct` the first-chunk and per-chunk
stall thresholds.  State: pending `events`, `elapsed` deciseconds,
accumulated `acc` fragments, whether a non-empty fragment has arrived
(`gotFirst`), and the chunk counter.  `pbarOn` says whether a progress
bar is attached and `raisesAt v` whether its `update_absolute(v)` raises.
Returns the value of the Python function (`some` joined text or `none`)
together with the stop reason. -/
def streamLoop (total fct ct : ℤ) (pbarOn : Bool) (raisesAt : Nat → Bool) :
    List StreamEvent → ℤ → List (List Char) → Bool → Nat →
      Option (List Char) × StopReason
  | [], elapsed, acc, gotFirst, _ =>
    if total ≤ elapsed then
      ((if acc = [] then none else some acc.flatten), StopReason.totalTimeout)
    else
      (none, if gotFirst then StopReason.laterStall else StopReason.firstStall)
  | e :: rest, elapsed, acc, gotFirst, chunkCount =>
    if total ≤ elapsed then
      ((if acc = [] then none else some acc.flatten), StopReason.totalTimeout)
    else
      match e with
      | StreamEvent.err d =>
        if imin (if gotFirst then ct else fct) (total - elapsed) < d then
          (none, if gotFirst then StopReason.laterStall else StopReason.firstStall)
        else (none, StopReason.streamFailed)
      | StreamEvent.done d =>
        if imin (if gotFirst then ct else fct) (total - elapsed) < d then
          (none, if gotFirst then StopReason.laterStall else StopReason.firstStall)
        else ((if acc = [] then none else some acc.flatten), StopReason.streamDone)
      | StreamEvent.chunk d text =>
        if imin (if gotFirst then ct else fct) (total - elapsed) < d then
          (none, if gotFirst then StopReason.laterStall else StopReason.firstStall)
        else if text = [] then
          streamLoop total fct ct pbarOn raisesAt rest (elapsed + d) acc gotFirst chunkCount
        else if pbarOn && raisesAt (nmin (5 + 2 * (chunkCount + 1)) 95) then
          (none, StopReason.streamFailed)
        else
          streamLoop total fct ct pbarOn raisesAt rest (elapsed + d)
            (acc ++ [text]) true (chunkCount + 1)

/-- `_generate_with_streaming` for a timeout of `timeoutS` whole seconds:
stall thresholds from lines 486-487 (`min(timeout * 0.6, 90)` seconds
before the first fragment, `30` seconds after, i.e. `min(6 * timeoutS,
900)` and `300` deciseconds), then the loop from a fresh start state. -/
def streamRun (timeoutS : ℤ) (pbarOn : Bool) (raisesAt : Nat → Bool)
    (events : List StreamEvent) : Option (List Char) × StopReason :=
  streamLoop (10 * timeoutS) (imin (6 * timeoutS) 900) 300 pbarOn raisesAt events 0 [] false 0

/-- A progress sink that never raises. -/
def noRaise : Nat → Bool := fun _ => false

/-! ## Style presets (`style_presets.py`) and `apply_style`
(`style_applier_node.py`, lines 51-93) -/

/-- `StyleKeywords` (style_presets.py lines 27-34). -/
structure StyleKeywords where
  primary : List (List Char)
  lighting : List (List Char)
  technical : List (List Char)
  composition : List (List Char)
  texture : List (List Char)

/-- Keyword table of the `cinematic` style (lines 62-72). -/
def cinematicKeywords : StyleKeywords where
  primary := ["cinematic shot".toList, "film grain".toList, "movie still".toList,
    "dramatic scene".toList]
  lighting := ["dramatic lighting".toList, "volumetric light".toList, "rim lighting".toList,
    "chiaroscuro".toList, "golden hour".toList]
  technical := ["anamorphic lens".toList, "shallow depth of field".toList, "bokeh".toList,
    "35mm film".toList, "wide aspect ratio".toList]
  composition := ["rule of thirds".toList, "leading lines".toList,
    "dynamic composition".toList, "cinematic framing".toList]
  texture := ["rich color grading".toList, "film texture".toList, "atmospheric haze".toList]

/-- Keyword table of the `still_image` style (lines 73-83). -/
def stillImageKeywords : StyleKeywords where
  primary := ["professional photography".toList, "high resolution".toList,
    "sharp focus".toList, "studio quality".toList]
  lighting := ["natural lighting".toList, "soft diffused light".toList,
    "studio lighting".toList, "balanced exposure".toList]
  technical := ["f/2.8 aperture".toList, "ISO 100".toList, "sharp optics".toList,
    "full frame sensor".toList, "RAW quality".toList]
  composition := ["centered composition".toList, "clean framing".toList,
    "balanced layout".toList, "professional angle".toList]
  texture := ["realistic textures".toList, "fine details".toList,
    "crisp definition".toList, "accurate colors".toList]

/-- `StylePreset.get_style_choices()` (lines 108-111). -/
def styleChoices : List (List Char) := ["cinematic".toList, "still_image".toList]

/-- `get_style_keywords` (lines 87-94): look the style up after
lower-casing; `none` models the `ValueError` raise. -/
def getStyleKeywords (style : List Char) : Option StyleKeywords :=
  if style.map toLowerCh = ("cinematic".toList) then some cinematicKeywords
  else if style.map toLowerCh = ("still_image".toList) then some stillImageKeywords
  else none

/-- Python `", ".join(parts)`. -/
def joinComma (parts : List (List Char)) : List Char :=
  List.intercalate (", ".toList) parts

/-- `StylePreset.get_style_prompt` (lines 117-138): primary, lighting,
composition and texture keywords, technical keywords appended when
requested, an `emphasis on ...` part prepended when `emphasis` is a
non-empty string; joined with commas. -/
def getStylePrompt (style emphasis : List Char) (includeTechnical : Bool) :
    Option (List Char) :=
  match getStyleKeywords style with
  | none => none
  | some k =>
    let parts := k.primary ++ k.lighting ++ k.composition ++ k.texture ++
      (if includeTechnical then k.technical else [])
    let parts :=
      if emphasis = [] then parts else (("emphasis on ".toList) ++ emphasis) :: parts
    some (joinComma parts)

/-- The unknown-style diagnostic of `apply_style` (line 69). -/
def applyStyleErr (style : List Char) : List Char :=
  ("[StyleApplier] Error: Unknown style '".toList) ++ style ++
    ("'. Available: ('cinematic', 'still_image')".toList)

/-- The `except ValueError` diagnostic of `apply_style` (line 79);
unreachable after the membership validation. -/
def applyStyleValueErr (style : List Char) : List Char :=
  ("[StyleApplier] Error getting style: Unknown style '".toList) ++ style ++
    ("'. Available: cinematic, still_image".toList)

/-- `StyleApplierNode.apply_style` (lines 51-93): normalise the inputs,
validate the style, fetch the keyword string, and compose according to
`position`; an empty (stripped) prompt returns the keyword string in both
tuple slots. -/
def applyStyle (prompt style position emphasis : List Char)
    (includeTechnical : Bool) : List Char × List Char :=
  let promptN := if prompt = [] then [] else pyStrip prompt
  let styleN := if style = [] then ("cinematic".toList) else pyStrip style
  if !(styleChoices.contains styleN) then (applyStyleErr styleN, [])
  else
    match getStylePrompt styleN emphasis includeTechnical with
    | none => (applyStyleValueErr styleN, [])
    | some kw =>
      if promptN = [] then (kw, kw)
      else if position = ("prefix".toList) then
        (kw ++ (", ".toList) ++ promptN, kw)
      else if position = ("suffix".toList) then
        (promptN ++ (", ".toList) ++ kw, kw)
      else
        (kw ++ (", ".toList) ++ promptN ++ (", ".toList) ++ kw, kw)

/-! ## The public `generate` operation (lines 575-706) -/

/-- Keys of `DEFAULT_STYLES` (lines 81-213). -/
def promptStyleKeys : List (List Char) :=
  ["cinematic".toList, "anime".toList, "photorealistic".toList, "fantasy".toList,
    "abstract".toList, "cyberpunk".toList, "sci-fi".toList, "video_wan".toList]

/-- Template selection of `_render_template` (lines 398-408) in the
default configuration (no `templates.yaml` override): an unknown style
key silently falls back to the cinematic template. -/
def templateKeyFor (style : List Char) : List Char :=
  if promptStyleKeys.contains style then style else ("cinematic".toList)

/-- Outcome of the `subprocess.run` call of the fallback path (lines
674-706): normal completion with exit code and captured streams, the
`TimeoutExpired` raise, the `FileNotFoundError` raise, or any other raise
with its message. -/
inductive SubprocOutcome
  | finished (returncode : Int) (stdout stderr : List Char)
  | timedOutExn
  | fileNotFound
  | otherExn (msg : List Char)
deriving DecidableEq

/-- External calls `generate` performs, in order: the health probe, a
progress-sink `update_absolute(v)`, the streaming controller (with the
template key of the rendered prompt and the effective timeout in seconds
it was given), and the subprocess fallback (with its timeout in
seconds). -/
inductive CallTag
  | health
  | pbarUpdate (v : Nat)
  | stream (templateKey : List Char) (timeoutS : Nat)
  | subproc (timeoutS : Nat)
deriving DecidableEq

/-- Result of one `generate` invocation: the returned string
(`Except.ok`) or a fault propagated out of `generate` to the host
(`Except.error ()`), together with the trace of external calls. -/
structure GenOut where
  res : Except Unit (List Char)
  calls : List CallTag

instance : DecidableEq (Except Unit (List Char)) := fun a b =>
  match a, b with
  | Except.ok x, Except.ok y =>
    if h : x = y then Decidable.isTrue (by rw [h]) else
      Decidable.isFalse (by intro hc; injection hc; contradiction)
  | Except.error x, Except.error y =>
    Decidable.isTrue (by rw [Unit.ext x y])
  | Except.ok _, Except.error _ => Decidable.isFalse (by intro hc; injection hc)
  | Except.error _, Except.ok _ => Decidable.isFalse (by intro hc; injection hc)

instance : DecidableEq GenOut := fun a b =>
  if h : a.res = b.res ∧ a.calls = b.calls then
    Decidable.isTrue (by cases a; cases b; simp only at h; simp [h.1, h.2])
  else
    Decidable.isFalse (by intro hc; exact h (by rw [hc]; exact ⟨rfl, rfl⟩))

/-- Everything outside `generate` that determines its behaviour:
availability flags, the progress sink (`pbarAvailable` covers
`COMFY_PROGRESS_AVAILABLE` and a `unique_id` being supplied;
`pbarRaisesAt v` says whether `update_absolute(v)` raises, `pbarExnMsg`
the exception text), the two backend probe calls, the stream events and
the subprocess outcome. -/
structure GenEnv where
  ollamaAvailable : Bool
  pbarAvailable : Bool
  pbarRaisesAt : Nat → Bool
  pbarExnMsg : List Char
  listOk : Bool
  psOk : Bool
  running : List (List Char)
  streamEvents : List StreamEvent
  subproc : SubprocOutcome

def warnEmptyDesc : List Char := "⚠️ Please enter an image description.".toList

def warnEmptyResult : List Char := "⚠️ Generation returned empty result.".toList

def warnNotFound : List Char :=
  "⚠️ Ollama not found. Install from: https://ollama.ai".toList

def warnOllamaErrLit : List Char := "⚠️ Ollama error: ".toList

def warnErrLit : List Char := "⚠️ Error: ".toList

def warnTimedOutLit : List Char := "⚠️ Generation timed out after ".toList

/-- The subprocess fallback path (lines 673-706).  The whole block is
inside `try`, so a raising progress sink at the `update_absolute(100)`
of line 690 is caught by `except Exception` and returned as an
`"⚠️ Error: ..."` string. -/
def subprocPart (env : GenEnv) (pbar includeReasoning : Bool) (timeout : Nat)
    (calls : List CallTag) : GenOut :=
  let calls := calls ++ [CallTag.subproc timeout]
  match env.subproc with
  | SubprocOutcome.finished rc sout serr =>
    if rc != 0 then ⟨Except.ok (warnOllamaErrLit ++ serr), calls⟩
    else
      let out := sanitizeOutput includeReasoning sout
      if pbar && env.pbarRaisesAt 100 then
        ⟨Except.ok (warnErrLit ++ env.pbarExnMsg), calls ++ [CallTag.pbarUpdate 100]⟩
      else
        let calls := calls ++ (if pbar then [CallTag.pbarUpdate 100] else [])
        if out = [] then ⟨Except.ok warnEmptyResult, calls⟩ else ⟨Except.ok out, calls⟩
  | SubprocOutcome.timedOutExn =>
    ⟨Except.ok (warnTimedOutLit ++ (Nat.repr timeout).toList ++ ("s".toList)), calls⟩
  | SubprocOutcome.fileNotFound => ⟨Except.ok warnNotFound, calls⟩
  | SubprocOutcome.otherExn m => ⟨Except.ok (warnErrLit ++ m), calls⟩

/-- Cold-start timeout adjustment (lines 634-646): when the health probe
reports the backend reachable but the model not resident, the effective
timeout is `min(int(timeout * 1.3), 600)` seconds (`int()` truncates, and
for `timeout ≤ 600` the float product rounds to the exact value, so
`(timeout * 13) / 10` in natural division models it exactly); otherwise
the user timeout is passed unchanged. -/
def effectiveTimeout (env : GenEnv) (model : List Char) (timeout : Nat) : Nat :=
  if (checkOllamaHealth true env.listOk env.psOk env.running model).1
      && !(checkOllamaHealth true env.listOk env.psOk env.running model).2
  then nmin ((timeout * 13) / 10) 600 else timeout

/-- `PromptGeneratorNode.generate` (lines 575-706) in the default template
configuration.  The progress bar is active when the host sink is available
and its construction-time `update_absolute(0)` did not raise (lines
622-629).  The unguarded `update_absolute(5)` and `update_absolute(100)`
calls of lines 639 and 663 propagate a raising sink (`Except.error`). -/
def genModel (env : GenEnv) (model description style : List Char)
    (includeReasoning : Bool) (timeout : Nat) : GenOut :=
  if pyStrip description = [] then ⟨Except.ok warnEmptyDesc, []⟩
  else
    let pbar := env.pbarAvailable && !(env.pbarRaisesAt 0)
    let tkey := templateKeyFor style
    if env.ollamaAvailable then
      let calls := [CallTag.health]
      if pbar && env.pbarRaisesAt 5 then
        ⟨Except.error (), calls ++ [CallTag.pbarUpdate 5]⟩
      else
        let calls := calls ++ (if pbar then [CallTag.pbarUpdate 5] else [])
        let effective := effectiveTimeout env model timeout
        let calls := calls ++ [CallTag.stream tkey effective]
        match (streamRun (effective : ℤ) pbar env.pbarRaisesAt env.streamEvents).1 with
        | some out =>
          let out := sanitizeOutput includeReasoning out
          if pbar && env.pbarRaisesAt 100 then
            ⟨Except.error (), calls ++ [CallTag.pbarUpdate 100]⟩
          else
            let calls := calls ++ (if pbar then [CallTag.pbarUpdate 100] else [])
            if out = [] then ⟨Except.ok warnEmptyResult, calls⟩
            else ⟨Except.ok out, calls⟩
        | none => subprocPart env pbar includeReasoning timeout calls
    else subprocPart env pbar includeReasoning timeout []

-- scratch checks (to be removed)

/-- A benign environment: backend up, model not resident, no progress
sink, a stream that delivers `"hello"` and completes, and a clean
subprocess fallback. -/
def envOkStream : GenEnv where
  ollamaAvailable := true
  pbarAvailable := false
  pbarRaisesAt := noRaise
  pbarExnMsg := []
  listOk := true
  psOk := true
  running := []
  streamEvents := [StreamEvent.chunk 10 ("hello".toList), StreamEvent.done 10]
  subproc := SubprocOutcome.finished 0 [] []

/-- A host environment whose progress sink constructs fine (the
`update_absolute(0)` inside the guarded constructor block succeeds) but
raises at the unguarded `update_absolute(5)` of line 639. -/
def envRaisingSink : GenEnv where
  ollamaAvailable := true
  pbarAvailable := true
  pbarRaisesAt := fun v => v == 5
  pbarExnMsg := []
  listOk := true
  psOk := true
  running := []
  streamEvents := [StreamEvent.chunk 10 (("hello").toList), StreamEvent.done 10]
  subproc := SubprocOutcome.finished 0 [] []

/-! ## Claim-side comparison definitions

The two definitions below follow the wording of their claims (not the
source); each exists only to be compared against the code-derived
definitions above. -/

/-- The final cleanup step as worded by claim C8: trim whitespace, remove
exactly one layer of surrounding double quotes, trim whitespace again.
Stated from the claim's words, for comparison with the code. -/
def claimC8FinalStep (s : List Char) : List Char :=
  let t := pyStrip s
  let t1 := match t with
    | '"' :: u => u
    | u => u
  let t2 := match t1.reverse with
    | '"' :: u => u.reverse
    | _ => t1
  pyStrip t2

/-- The residency criterion as worded by claim C3: exact match, or equality
of the prefixes of the probed and the resident identifier up to their first
separator.  Stated from the claim's words, for comparison with the code. -/
def claimC3Resident (model : List Char) (running : List (List Char)) : Prop :=
  (∃ rm ∈ running, model = rm) ∨
    (∃ rm ∈ running, splitHeadColon model = splitHeadColon rm)

/-! ## Helper lemmas -/

theorem dropWhile_eq_self_of_front {p : Char → Bool} {m m' : List Char}
    (hm : List.dropWhile p m = m) (hp : m' <+: m) :
    List.dropWhile p m' = m' := by
  cases m' with
  | nil => rfl
  | cons a t =>
    obtain ⟨s, hs⟩ := hp
    subst hs
    rw [List.cons_append] at hm
    rw [List.dropWhile_cons] at hm ⊢
    by_cases h : p a = true
    · rw [if_pos h] at hm
      have h1 := (List.dropWhile_sublist (l := t ++ s) p).length_le
      have h2 := congrArg List.length hm
      simp only [List.length_cons, List.length_append] at h1 h2
      omega
    · rw [if_neg h]

theorem pyStrip_idem (s : List Char) : pyStrip (pyStrip s) = pyStrip s := by
  unfold pyStrip
  rw [dropWhile_eq_self_of_front (List.dropWhile_idempotent isSpace s)
        ( List.rdropWhile_prefix isSpace (List.dropWhile isSpace s)),
     List.rdropWhile_idempotent]

/-! ## Claim C2 -/

/-- Claim C2 counterexample: the sanitizer is not idempotent for
`keep_reasoning = false`.  On `"No None ne"` the stray-`None` removal
(`re.sub(r"\s*None\s*", "", ...)`) deletes `" None "` and thereby splices
`"No"` and `"ne"` into a fresh `"None"`, which only a second application
removes: `sanitize(x) = "None"` but `sanitize(sanitize(x)) = ""`. -/
theorem c2_counterexample :
    sanitizeOutput false (sanitizeOutput false (("No None ne").toList))
      ≠ sanitizeOutput false (("No None ne").toList) := by decide

/-- Claim C2 (amended): the sanitizer is idempotent when
`keep_reasoning = true` (where it only trims outer whitespace); for
`keep_reasoning = false` idempotence fails (see `c2_counterexample`). -/
theorem c2_sanitize_idempotent_keep (x : List Char) :
    sanitizeOutput true (sanitizeOutput true x) = sanitizeOutput true x :=
  pyStrip_idem x

/-! ## Claim C8 -/


/-- Claim C8 counterexample: with `keep_reasoning = true` the code applies
no quote removal at all (`generate` line 657-660 only calls `strip()`), so
on `"a"` in quotes the code returns the quotes intact while the claim's
final step removes them. -/
theorem c8_counterexample :
    sanitizeOutput true (("\"a\"").toList) = ("\"a\"").toList ∧
    claimC8FinalStep (("\"a\"").toList) = ("a").toList ∧
    sanitizeOutput true (("\"a\"").toList) ≠ claimC8FinalStep (("\"a\"").toList) := by
  decide

/-- Claim C8 (amended): when `keep_reasoning = true` the sanitizer only
trims outer whitespace — no quote, marker, prefix or `None` removal.  When
`keep_reasoning = false` it runs the marker/prefix/`None` removals and then
trims whitespace, removes all (not one) layers of surrounding double
quotes, and trims whitespace again; on `a` in two layers of quotes it
returns bare `a`. -/
theorem c8_final_step (x : List Char) :
    sanitizeOutput true x = pyStrip x ∧
    sanitizeOutput false x =
      pyStrip (pyStripQuotes (pyStrip (reSubNone (reSubPromptImage
        (reSubPromptLabel (reSubThinking (pyStrip x))))))) ∧
    sanitizeOutput false (("\"\"a\"\"").toList) = ("a").toList := by
  refine ⟨rfl, ?_, by decide⟩
  show extractFinalPrompt (pyStrip x) = _
  by_cases h : pyStrip x = []
  · rw [h]; rfl
  · rw [extractFinalPrompt, if_neg h]

/-! ## Claim C3 -/


/-- Claim C3 counterexample: the code tests
`model.startswith(rm.split(":")[0])`, which is not symmetric in the two
prefixes.  With resident list `["qwen3:8b"]`, probing `"qwen3x"` is
reported resident by the code (it starts with `"qwen3"`), while under the
claim's criterion it is not (prefixes `"qwen3x"` and `"qwen3"` differ, and
there is no exact match). -/
theorem c3_counterexample :
    (checkOllamaHealth true true true [("qwen3:8b").toList] (("qwen3x").toList)).2 = true ∧
    ¬ claimC3Resident (("qwen3x").toList) [("qwen3:8b").toList] := by
  refine ⟨by decide, ?_⟩
  unfold claimC3Resident
  decide

/-- Claim C3 (amended): when both backend calls succeed, the prober reports
the model resident iff it exactly matches a resident identifier or starts
with some resident identifier's portion before its first colon; the three
concrete probes of the claim behave as stated. -/
theorem c3_residency (model : List Char) (running : List (List Char)) :
    ((checkOllamaHealth true true true running model).2 = true ↔
      ∃ rm ∈ running, model = rm ∨ startsWithL (splitHeadColon rm) model = true) ∧
    (checkOllamaHealth true true true [("qwen3:8b").toList] (("qwen3:8b").toList)).2 = true ∧
    (checkOllamaHealth true true true [("qwen3:8b").toList] (("qwen3:8b-q4").toList)).2 = true ∧
    (checkOllamaHealth true true true [("qwen3:8b").toList] (("llama3.2").toList)).2 = false := by
  refine ⟨?_, by decide, by decide, by decide⟩
  show modelIsLoaded model running = true ↔ _
  unfold modelIsLoaded
  simp only [List.any_eq_true, Bool.or_eq_true, beq_iff_eq]

/-! ## Claim C7 -/

theorem strLe_total (a b : List Char) : strLe a b = true ∨ strLe b a = true := by
  induction a generalizing b with
  | nil => left; rfl
  | cons x xs ih =>
    cases b with
    | nil => right; rfl
    | cons y ys =>
      by_cases h1 : x.toNat < y.toNat
      · left; simp [strLe, h1]
      · by_cases h2 : y.toNat < x.toNat
        · right; simp [strLe, h2]
        · have hxy : x.toNat = y.toNat := by omega
          rcases ih ys with h | h
          · left; simp [strLe, hxy, h]
          · right; simp [strLe, hxy, h]

theorem strLe_trans {a b c : List Char} (h1 : strLe a b = true)
    (h2 : strLe b c = true) : strLe a c = true := by
  induction a generalizing b c with
  | nil => rfl
  | cons x xs ih =>
    cases b with
    | nil => simp [strLe] at h1
    | cons y ys =>
      cases c with
      | nil => simp [strLe] at h2
      | cons z zs =>
        simp only [strLe, Bool.or_eq_true, Bool.and_eq_true, decide_eq_true_eq,
          beq_iff_eq] at h1 h2 ⊢
        rcases h1 with h1 | ⟨h1e, h1r⟩ <;> rcases h2 with h2 | ⟨h2e, h2r⟩
        · left; omega
        · left; omega
        · left; omega
        · right; exact ⟨by omega, ih h1r h2r⟩

theorem modelKeyR_total : ∀ a b : List Char, modelKeyR a b ∨ modelKeyR b a := by
  intro a b
  unfold modelKeyR modelKeyLe
  by_cases h1 : loraFlag a < loraFlag b
  · left; simp [h1]
  · by_cases h2 : loraFlag b < loraFlag a
    · right; simp [h2]
    · have he : loraFlag a = loraFlag b := by omega
      rcases strLe_total a b with h | h
      · left; simp [he, h]
      · right; simp [he, h]

theorem modelKeyR_trans : ∀ a b c : List Char,
    modelKeyR a b → modelKeyR b c → modelKeyR a c := by
  intro a b c h1 h2
  unfold modelKeyR modelKeyLe at h1 h2 ⊢
  simp only [Bool.or_eq_true, Bool.and_eq_true, decide_eq_true_eq, beq_iff_eq] at h1 h2 ⊢
  rcases h1 with h1 | ⟨h1e, h1r⟩ <;> rcases h2 with h2 | ⟨h2e, h2r⟩
  · left; omega
  · left; omega
  · left; omega
  · right; exact ⟨by omega, strLe_trans h1r h2r⟩

instance : IsTotal (List Char) modelKeyR := ⟨modelKeyR_total⟩

instance : IsTrans (List Char) modelKeyR := ⟨modelKeyR_trans⟩

theorem modelKeyR_lora_first {a b : List Char} (h : modelKeyR a b)
    (hb : isLoraName b = true) : isLoraName a = true := by
  unfold modelKeyR modelKeyLe loraFlag at h
  rw [hb] at h
  by_cases ha : isLoraName a = true
  · exact ha
  · simp [ha] at h

theorem modelKeyR_lex {a b : List Char} (h : modelKeyR a b)
    (hab : isLoraName a = isLoraName b) : strLe a b = true := by
  unfold modelKeyR modelKeyLe loraFlag at h
  rw [hab] at h
  simpa using h

/-- Claim C7 (confirmed): the cached model list is a permutation of the raw
list in which every LoRA-keyword-matching entry precedes every
non-matching entry (second conjunct: whenever a later entry matches, every
earlier entry does too, i.e. the matching entries form a prefix) and
entries with the same matching status are in lexicographic (code point)
order; the claim's concrete example sorts as stated. -/
theorem c7_model_ordering (models : List (List Char)) :
    (sortModels models).Perm models ∧
    List.Pairwise (fun a b => isLoraName b = true → isLoraName a = true)
      (sortModels models) ∧
    List.Pairwise (fun a b => isLoraName a = isLoraName b → strLe a b = true)
      (sortModels models) ∧
    sortModels [("llama3.2").toList, ("my-lora-v2").toList, ("qwen3:8b").toList]
      = [("my-lora-v2").toList, ("llama3.2").toList, ("qwen3:8b").toList] := by
  refine ⟨List.perm_insertionSort modelKeyR models, ?_, ?_, by decide⟩
  · exact (List.sorted_insertionSort modelKeyR models).imp
      (fun hab hb => modelKeyR_lora_first hab hb)
  · exact (List.sorted_insertionSort modelKeyR models).imp
      (fun hab he => modelKeyR_lex hab he)

/-! ## Claim C5 -/

/-- Claim C5 (confirmed): in every loop iteration with remaining budget
(`elapsed < 10 * timeoutS` deciseconds), the wait threshold for the next
fragment is `min(0.6 * timeout, 90)` seconds (`imin (6 * timeoutS) 900`
deciseconds) while no fragment has arrived and `30` seconds (`300`
deciseconds) afterwards, both capped by the remaining budget
`10 * timeoutS - elapsed`.  First conjunct: a fragment arriving later than
that threshold makes the controller stop at once with the stall failure of
the current phase, for every possible continuation of the stream (the
in-flight fetch is abandoned).  Second conjunct: a fragment within the
threshold is consumed and the loop continues.  Third conjunct: a fetch
that never returns stalls the same way. -/
theorem c5_stall_thresholds (timeoutS d : ℤ) (text : List Char)
    (rest : List StreamEvent) (elapsed : ℤ) (acc : List (List Char))
    (g pb : Bool) (ra : Nat → Bool) (cc : Nat)
    (h : elapsed < 10 * timeoutS) :
    (imin (if g then 300 else imin (6 * timeoutS) 900) (10 * timeoutS - elapsed) < d →
      streamLoop (10 * timeoutS) (imin (6 * timeoutS) 900) 300 pb ra
          (StreamEvent.chunk d text :: rest) elapsed acc g cc
        = (none, if g then StopReason.laterStall else StopReason.firstStall)) ∧
    (d ≤ imin (if g then 300 else imin (6 * timeoutS) 900) (10 * timeoutS - elapsed) →
      streamLoop (10 * timeoutS) (imin (6 * timeoutS) 900) 300 pb ra
          (StreamEvent.chunk d text :: rest) elapsed acc g cc
        = (if text = [] then
             streamLoop (10 * timeoutS) (imin (6 * timeoutS) 900) 300 pb ra rest
               (elapsed + d) acc g cc
           else if pb && ra (nmin (5 + 2 * (cc + 1)) 95) then
             (none, StopReason.streamFailed)
           else
             streamLoop (10 * timeoutS) (imin (6 * timeoutS) 900) 300 pb ra rest
               (elapsed + d) (acc ++ [text]) true (cc + 1))) ∧
    (streamLoop (10 * timeoutS) (imin (6 * timeoutS) 900) 300 pb ra [] elapsed acc g cc
      = (none, if g then StopReason.laterStall else StopReason.firstStall)) := by
  have hnot : ¬ (10 * timeoutS ≤ elapsed) := not_le.mpr h
  refine ⟨fun hd => ?_, fun hd => ?_, ?_⟩
  · simp only [streamLoop, if_neg hnot]
    exact if_pos hd
  · simp only [streamLoop, if_neg hnot]
    exact if_neg (not_lt.mpr hd)
  · simp only [streamLoop, if_neg hnot]

/-- Witness for `c5_stall_thresholds`: with a 100 second timeout and no
fragment yet, the threshold is `min(60, 90) = 60` seconds (600
deciseconds); a first fragment taking 70 seconds (700 deciseconds) makes
the controller stop with the first-chunk stall even though the total
budget would have allowed waiting longer. -/
theorem c5_witness :
    ((0:ℤ) < 10 * 100) ∧
    (imin (if false then 300 else imin (6 * 100) 900) (10 * 100 - 0) < 700) ∧
    streamLoop (10 * 100) (imin (6 * 100) 900) 300 false noRaise
        [StreamEvent.chunk 700 (("A").toList)] 0 [] false 0
      = (none, StopReason.firstStall) := by
  refine ⟨by decide, by decide, ?_⟩
  exact (c5_stall_thresholds 100 700 (("A").toList) [] 0 [] false false noRaise 0
    (by decide)).1 (by decide)

/-! ## Claim C1 -/

/-- Claim C1 counterexample: a 10-second total timeout with fragments
`"A"` after 6 s and `"B"` after 4 more seconds exhausts the budget while a
third fragment is still pending; the controller stops on the total
timeout, yet returns the accumulated partial text `"AB"` as a success
value instead of discarding it (`_generate_with_streaming` lines 515-519
`break` into the normal return of lines 565-573). -/
theorem c1_counterexample :
    streamRun 10 false noRaise
        [StreamEvent.chunk 60 (("A").toList), StreamEvent.chunk 40 (("B").toList),
         StreamEvent.chunk 10 (("C").toList)]
      = (some (("AB").toList), StopReason.totalTimeout) := by decide

/-- Claim C1 (amended): whenever the total budget is exhausted
(`total ≤ elapsed`), the controller stops without consuming any further
stream event, and returns the joined accumulated text as a success value
when at least one non-empty fragment was accumulated — only an empty
accumulator yields the failure value `none`. -/
theorem c1_total_timeout (total fct ct : ℤ) (pb : Bool) (ra : Nat → Bool)
    (events : List StreamEvent) (elapsed : ℤ) (acc : List (List Char))
    (g : Bool) (cc : Nat) (h : total ≤ elapsed) :
    streamLoop total fct ct pb ra events elapsed acc g cc
      = ((if acc = [] then none else some acc.flatten), StopReason.totalTimeout) := by
  cases events with
  | nil => simp only [streamLoop, if_pos h]
  | cons e rest => simp only [streamLoop, if_pos h]

/-- Witness for `c1_total_timeout`: budget exhausted with `"AB"`
accumulated and an event still pending returns `some "AB"`. -/
theorem c1_witness :
    ((100:ℤ) ≤ 100) ∧
    streamLoop 100 600 300 false noRaise [StreamEvent.chunk 10 (("Z").toList)] 100
        [("AB").toList] true 1
      = (some (("AB").toList), StopReason.totalTimeout) := by
  refine ⟨by decide, ?_⟩
  exact (c1_total_timeout 100 600 300 false noRaise
    [StreamEvent.chunk 10 (("Z").toList)] 100 [("AB").toList] true 1 (by decide)).trans
    (by decide)

/-! ## Plumbing lemmas for `generate` -/

theorem subprocPart_calls_mem (env : GenEnv) (pb ir : Bool) (t : Nat)
    (cs : List CallTag) (x : CallTag) (hx : x ∈ cs ++ [CallTag.subproc t]) :
    x ∈ (subprocPart env pb ir t cs).calls := by
  simp only [subprocPart]
  split
  · split
    · exact hx
    · split
      · exact List.mem_append_left _ hx
      · split
        · exact List.mem_append_left _ hx
        · exact List.mem_append_left _ hx
  · exact hx
  · exact hx
  · exact hx

theorem subprocPart_res_ok (env : GenEnv) (pb ir : Bool) (t : Nat)
    (cs : List CallTag) :
    ∃ s, (subprocPart env pb ir t cs).res = Except.ok s := by
  simp only [subprocPart]
  split
  · split
    · exact ⟨_, rfl⟩
    · split
      · exact ⟨_, rfl⟩
      · split
        · exact ⟨_, rfl⟩
        · exact ⟨_, rfl⟩
  · exact ⟨_, rfl⟩
  · exact ⟨_, rfl⟩
  · exact ⟨_, rfl⟩

theorem band_bor_false_left {a b c : Bool} (h : (a && (b || c)) = false) :
    (a && b) = false := by
  cases a <;> cases b <;> cases c <;> simp_all

theorem band_bor_false_right {a b c : Bool} (h : (a && (b || c)) = false) :
    (a && c) = false := by
  cases a <;> cases b <;> cases c <;> simp_all

/-! ## Claim C4 -/

/-- Claim C4 counterexample: `"watercolor"` is not a known style key, yet
`generate` reports no validation error — `_render_template` (lines
398-399) silently falls back to the cinematic template, the streaming
controller is invoked (the trace contains its call, with the cinematic
template key), and the generated text is returned. -/
theorem c4_counterexample :
    genModel envOkStream (("m").toList) (("cat").toList) (("watercolor").toList) false 120
      = ⟨Except.ok (("hello").toList),
         [CallTag.health, CallTag.stream (("cinematic").toList) 156]⟩ ∧
    ¬ (("watercolor").toList ∈ promptStyleKeys) := by decide

/-- Claim C4 (amended): an empty or whitespace-only description is
rejected immediately with the validation diagnostic and no external call
of any kind is made; an unknown style key however is not validated — the
template key falls back to `"cinematic"` and generation is attempted (for
any non-empty description and a non-raising progress sink, the trace
contains a streaming-controller call or a subprocess fallback call). -/
theorem c4_validation (env : GenEnv) (model description style : List Char)
    (incR : Bool) (timeout : Nat) :
    (pyStrip description = [] →
      genModel env model description style incR timeout
        = ⟨Except.ok warnEmptyDesc, []⟩) ∧
    (pyStrip description ≠ [] →
      (env.pbarAvailable && !(env.pbarRaisesAt 0) && env.pbarRaisesAt 5) = false →
      CallTag.stream (templateKeyFor style) (effectiveTimeout env model timeout)
          ∈ (genModel env model description style incR timeout).calls ∨
        CallTag.subproc timeout ∈ (genModel env model description style incR timeout).calls) := by
  constructor
  · intro h
    simp only [genModel, if_pos h]
  · intro hdesc hpb
    simp only [genModel, if_neg hdesc]
    by_cases holl : env.ollamaAvailable = true
    · rw [if_pos holl, if_neg (by rw [hpb]; exact Bool.false_ne_true)]
      left
      cases hsr : (streamRun ((effectiveTimeout env model timeout : Nat) : ℤ)
          (env.pbarAvailable && !(env.pbarRaisesAt 0)) env.pbarRaisesAt
          env.streamEvents).1 with
      | some out =>
        dsimp only
        split
        · simp
        · split
          · simp
          · simp
      | none =>
        dsimp only
        apply subprocPart_calls_mem
        simp
    · rw [if_neg holl]
      right
      apply subprocPart_calls_mem
      simp

/-- Witness for `c4_validation`: a whitespace-only description is rejected
with the diagnostic and an empty call trace. -/
theorem c4_witness :
    (pyStrip (("  ").toList) = []) ∧
    genModel envOkStream (("m").toList) (("  ").toList) (("cinematic").toList) false 120
      = ⟨Except.ok warnEmptyDesc, []⟩ :=
  ⟨by decide, (c4_validation envOkStream (("m").toList) (("  ").toList)
    (("cinematic").toList) false 120).1 (by decide)⟩

/-! ## Claim C6 -/

/-- Claim C6 counterexample: with the backend reachable, the model not
resident and a user timeout of 119 seconds, the controller is invoked with
`int(119 * 1.3) = 154` seconds (1540 deciseconds), not the claim's
`min(119 × 1.3, 600) = 154.7` seconds (1547 deciseconds): `int()`
truncates the product. -/
theorem c6_counterexample :
    (genModel envOkStream (("m").toList) (("cat").toList) (("cinematic").toList)
        false 119).calls
      = [CallTag.health, CallTag.stream (("cinematic").toList) 154] ∧
    (10 * 154 : ℤ) ≠ imin (119 * 13) 6000 := by decide

/-- Claim C6 (amended): the timeout passed to the streaming controller is
`effectiveTimeout`, which equals `min(⌊timeout × 1.3⌋, 600)` (integer
truncation of the product) when the backend is reachable and the model not
resident, and the unchanged user timeout in every other case. -/
theorem c6_effective_timeout (env : GenEnv) (model description style : List Char)
    (incR : Bool) (timeout : Nat)
    (hdesc : pyStrip description ≠ [])
    (holl : env.ollamaAvailable = true)
    (hpb : (env.pbarAvailable && !(env.pbarRaisesAt 0) && env.pbarRaisesAt 5) = false) :
    (CallTag.stream (templateKeyFor style) (effectiveTimeout env model timeout)
      ∈ (genModel env model description style incR timeout).calls) ∧
    ((checkOllamaHealth true env.listOk env.psOk env.running model).1 = true →
      (checkOllamaHealth true env.listOk env.psOk env.running model).2 = false →
      effectiveTimeout env model timeout = nmin ((timeout * 13) / 10) 600) ∧
    ((checkOllamaHealth true env.listOk env.psOk env.running model).1 = false ∨
        (checkOllamaHealth true env.listOk env.psOk env.running model).2 = true →
      effectiveTimeout env model timeout = timeout) := by
  refine ⟨?_, ?_, ?_⟩
  · simp only [genModel, if_neg hdesc]
    rw [if_pos holl, if_neg (by rw [hpb]; exact Bool.false_ne_true)]
    cases hsr : (streamRun ((effectiveTimeout env model timeout : Nat) : ℤ)
        (env.pbarAvailable && !(env.pbarRaisesAt 0)) env.pbarRaisesAt
        env.streamEvents).1 with
    | some out =>
      dsimp only
      split
      · simp
      · split
        · simp
        · simp
    | none =>
      dsimp only
      apply subprocPart_calls_mem
      simp
  · intro h1 h2
    unfold effectiveTimeout
    rw [h1, h2]
    simp
  · intro h
    unfold effectiveTimeout
    rcases h with h | h
    · rw [h]
      simp
    · rw [h]
      simp

/-- Witness for `c6_effective_timeout`: in `envOkStream` (reachable, not
resident) with timeout 119 s the stream call carries 154 s. -/
theorem c6_witness :
    (pyStrip (("cat").toList) ≠ []) ∧
    (envOkStream.ollamaAvailable = true) ∧
    ((envOkStream.pbarAvailable && !(envOkStream.pbarRaisesAt 0)
        && envOkStream.pbarRaisesAt 5) = false) ∧
    CallTag.stream (templateKeyFor (("cinematic").toList))
        (effectiveTimeout envOkStream (("m").toList) 119)
      ∈ (genModel envOkStream (("m").toList) (("cat").toList) (("cinematic").toList)
          false 119).calls :=
  ⟨by decide, by decide, by decide,
    (c6_effective_timeout envOkStream (("m").toList) (("cat").toList)
      (("cinematic").toList) false 119 (by decide) (by decide) (by decide)).1⟩

/-! ## Claim C9 -/


/-- Claim C9: first conjunct — whenever the progress sink does not raise
at the two unguarded update sites (5 and 100), every invocation returns a
string value (`Except.ok`), whatever the backend, stream and subprocess
do.  Second conjunct — the code slip: a sink that raises at the
`update_absolute(5)` of line 639 propagates a fault out of `generate`
(`Except.error`), contradicting the documented absorb-and-log policy. -/
theorem c9_string_outcomes :
    (∀ (env : GenEnv) (model description style : List Char) (incR : Bool)
        (timeout : Nat),
      (env.pbarAvailable && !(env.pbarRaisesAt 0)
        && (env.pbarRaisesAt 5 || env.pbarRaisesAt 100)) = false →
      ∃ s, (genModel env model description style incR timeout).res = Except.ok s) ∧
    genModel envRaisingSink (("m").toList) (("cat").toList) (("cinematic").toList)
        false 120
      = ⟨Except.error (), [CallTag.health, CallTag.pbarUpdate 5]⟩ := by
  constructor
  · intro env model description style incR timeout hpb
    have h5 := band_bor_false_left hpb
    have h100 := band_bor_false_right hpb
    simp only [genModel]
    split
    · exact ⟨_, rfl⟩
    · split
      · rw [if_neg (by rw [h5]; exact Bool.false_ne_true)]
        cases hsr : (streamRun ((effectiveTimeout env model timeout : Nat) : ℤ)
            (env.pbarAvailable && !(env.pbarRaisesAt 0)) env.pbarRaisesAt
            env.streamEvents).1 with
        | some out =>
          dsimp only
          rw [if_neg (by rw [h100]; exact Bool.false_ne_true)]
          split
          · exact ⟨_, rfl⟩
          · exact ⟨_, rfl⟩
        | none =>
          dsimp only
          exact subprocPart_res_ok _ _ _ _ _
      · exact subprocPart_res_ok _ _ _ _ _
  · decide

/-- Witness for `c9_string_outcomes`: with a non-raising sink the result
is a string value. -/
theorem c9_witness :
    ((envOkStream.pbarAvailable && !(envOkStream.pbarRaisesAt 0)
      && (envOkStream.pbarRaisesAt 5 || envOkStream.pbarRaisesAt 100)) = false) ∧
    ∃ s, (genModel envOkStream (("m").toList) (("cat").toList)
        (("cinematic").toList) false 120).res = Except.ok s :=
  ⟨by decide, c9_string_outcomes.1 envOkStream (("m").toList) (("cat").toList)
    (("cinematic").toList) false 120 (by decide)⟩

/-! ## Claim C10 -/

/-- Claim C10 (confirmed): for a valid style key and an empty or
whitespace-only prompt, `apply_style` returns the computed style keyword
string in both tuple slots — the base prompt is omitted and no separator
comma is added — for every position and emphasis input.  The keyword
string is the one `get_style_prompt` computes (it is always produced:
second conjunct). -/
theorem c10_empty_prompt (prompt style position emphasis : List Char) (tech : Bool)
    (hp : pyStrip prompt = [])
    (hs : (if style = [] then ("cinematic").toList else pyStrip style)
      ∈ styleChoices) :
    applyStyle prompt style position emphasis tech
      = ((getStylePrompt (if style = [] then ("cinematic").toList else pyStrip style)
            emphasis tech).getD [],
         (getStylePrompt (if style = [] then ("cinematic").toList else pyStrip style)
            emphasis tech).getD []) ∧
    (getStylePrompt (if style = [] then ("cinematic").toList else pyStrip style)
        emphasis tech).isSome = true := by
  have hpn : (if prompt = [] then ([] : List Char) else pyStrip prompt) = [] := by
    split
    · rfl
    · exact hp
  have hchoice : (if style = [] then ("cinematic").toList else pyStrip style)
        = ("cinematic").toList ∨
      (if style = [] then ("cinematic").toList else pyStrip style)
        = ("still_image").toList := by
    simpa [styleChoices] using hs
  rcases hchoice with h | h <;>
  · constructor
    · simp only [applyStyle]
      rw [h, hpn, if_neg (by decide)]
      rfl
    · rw [h]
      rfl

/-- Witness for `c10_empty_prompt`: whitespace-only prompt with the
`cinematic` style, suffix position, medium emphasis. -/
theorem c10_witness :
    (pyStrip (("  ").toList) = []) ∧
    ((if ("cinematic").toList = ([] : List Char) then ("cinematic").toList
        else pyStrip (("cinematic").toList)) ∈ styleChoices) ∧
    applyStyle (("  ").toList) (("cinematic").toList) (("suffix").toList)
        (("medium").toList) true
      = ((getStylePrompt (if ("cinematic").toList = ([] : List Char)
              then ("cinematic").toList else pyStrip (("cinematic").toList))
            (("medium").toList) true).getD [],
         (getStylePrompt (if ("cinematic").toList = ([] : List Char)
              then ("cinematic").toList else pyStrip (("cinematic").toList))
            (("medium").toList) true).getD []) :=
  ⟨by decide, by decide, (c10_empty_prompt (("  ").toList) (("cinematic").toList)
    (("suffix").toList) (("medium").toList) true (by decide) (by decide)).1⟩
